import Mathlib

/-!
Shallow embedding of `src/app.py` (freistellen-rembg-api): a Flask service
wrapping the external `rembg.remove` background-removal call.

Modelling conventions:
* External library effects (PIL `Image.open`/`resize`/`thumbnail`, rembg
  `remove`/`new_session`, PNG encoding, wall-clock timing) are fields of an
  `Ext` structure; the embedded code is parametric in them.
* Python `dict`s are association lists with insertion-order semantics.
* Python exceptions become `Except String` / `Option`.
* Python float arithmetic is embedded exactly: `len(bytes)/(1024*1024) > m`
  and `total/(1024**3) > 16` are exact in binary floating point (division by
  a power of two only shifts the exponent), so they are embedded as the
  equivalent integer comparisons; `int(w * (p/N)**0.5)` is embedded as the
  exact real value `⌊w·√(p/N)⌋ = Nat.sqrt (w*w*p/N)` (float rounding of the
  last ulp is elided).
* An `Img` is its pair of pixel dimensions plus an abstract content tag,
  which is all the wrapper code ever inspects.
-/

namespace RembgApi

/-- A decoded image: the wrapper only ever reads its dimensions; `tag`
stands for the pixel content so that distinct images stay distinct. -/
structure Img where
  width : Nat
  height : Nat
  tag : Nat
deriving Repr, DecidableEq

/-- A multipart upload: `werkzeug` `FileStorage` with `filename` and the
raw bytes obtained by `file.read()`. -/
structure UploadFile where
  filename : String
  bytes : List Nat
deriving Repr, DecidableEq

/-- The external libraries the wrapper delegates to (PIL, rembg, PNG codec,
wall clock).  `decode` is `PIL.Image.open` (raising on non-image bytes),
`resize`/`thumbnail` the PIL geometry operations, `remove` the rembg
inference call on a given session, `encodePNG` is `result.save(..., 'PNG')`,
`new_session` is `rembg.new_session` (raising = `none`), and `procTime` is
the measured wall-clock duration for a given input. -/
structure Ext where
  decode : List Nat → Except String Img
  resize : Img → Nat → Nat → Img
  thumbnail : Img → Nat → Img
  remove : Img → Nat → Except String Img
  encodePNG : Img → List Nat
  new_session : String → Option Nat
  procTime : List Nat → Rat

/-- Python `dict` lookup `d.get(k)` / `d[k]` on an insertion-ordered
association list. -/
def lookupDict {α : Type} (d : List (String × α)) (k : String) : Option α :=
  (d.find? (fun p => p.1 == k)).map (fun p => p.2)

/-- Python `d[k] = v`: overwrite in place if the key exists, else append. -/
def dictInsert {α : Type} (d : List (String × α)) (k : String) (v : α) :
    List (String × α) :=
  if d.any (fun p => p.1 == k) then
    d.map (fun p => if p.1 == k then (k, v) else p)
  else d ++ [(k, v)]

/-- The service state: `self.sessions` and `self.model_descriptions` of
`RembgAPIService`. -/
structure Service where
  sessions : List (String × Nat)
  model_descriptions : List (String × String)
deriving Repr, DecidableEq

/-- The fixed `model_descriptions` table assigned in
`RembgAPIService.__init__` (src/app.py lines 29-34). -/
def model_descriptions_table : List (String × String) :=
  [("u2net", "Standard-Modell (beste Balance)"),
   ("silueta", "Kompakt-Modell (schneller, 43MB)"),
   ("u2net_human_seg", "Speziell für Menschen"),
   ("isnet-general-use", "Verbessertes Modell (neueste Version)")]

/-- `_detect_railway_plan` (src/app.py lines 37-50): classify the total
system memory, read in bytes, by `total/(1024**3)` gigabytes; a `none`
reading models `psutil` raising, handled by the `except` fallback. -/
def detect_railway_plan (totalBytes : Option Nat) : String :=
  match totalBytes with
  | none => "Railway Pro Plan"
  | some total =>
    let total_memory_gb : Rat := (total : Rat) / 1024 ^ 3
    if 16 < total_memory_gb then "Railway Pro Plan"
    else if 4 < total_memory_gb then "Railway Hobby Plan"
    else "Railway Trial Plan"

/-- `_initialize_models` (src/app.py lines 65-101): load the essential
models, then the optional ones, extending the optional list with
`isnet-general-use` when `memory_info.get('total_gb', 0) > 16`.
`totalGb` is the `total_gb` entry of `get_memory_info()` (absent on a
psutil failure); `ext.new_session m = none` models `new_session` raising,
in which case the model is skipped. -/
def init_models (ext : Ext) (totalGb : Option Rat) : List (String × Nat) :=
  let essential_models := ["u2net", "silueta"]
  let optional_models :=
    ["u2net_human_seg"] ++
      (if 16 < totalGb.getD 0 then ["isnet-general-use"] else [])
  (essential_models ++ optional_models).foldl
    (fun d m =>
      match ext.new_session m with
      | some s => dictInsert d m s
      | none => d) []

/-- `RembgAPIService.__init__`: set the description table and load the
models. -/
def init_service (ext : Ext) (totalGb : Option Rat) : Service :=
  { sessions := init_models ext totalGb,
    model_descriptions := model_descriptions_table }

/-- The `max_pixels` bound of `process_image` (src/app.py line 123):
`4000000 if psutil.virtual_memory().total > 16 * (1024**3) else 1500000`. -/
def maxPixelsFor (mem : Nat) : Nat :=
  if 16 * 1024 ^ 3 < mem then 4000000 else 1500000

/-- The size-adaptation step of `process_image` (src/app.py lines 116-137):
pixel-count-triggered resize, else max-dimension-triggered thumbnail, else
unchanged.  `int(w * (max_pixels/original_pixels)**0.5)` is embedded as the
exact `⌊w·√(max_pixels/original_pixels)⌋ = Nat.sqrt (w*w*max_pixels/N)`. -/
def preprocess (ext : Ext) (mem : Nat) (max_size : Nat) (image : Img) : Img :=
  let original_pixels := image.width * image.height
  let max_pixels := maxPixelsFor mem
  if max_pixels < original_pixels then
    let new_width := Nat.sqrt (image.width * image.width * max_pixels / original_pixels)
    let new_height := Nat.sqrt (image.height * image.height * max_pixels / original_pixels)
    ext.resize image new_width new_height
  else if max_size < max image.width image.height then
    ext.thumbnail image max_size
  else image

/-- The model-fallback step of `process_image` (src/app.py lines 140-142):
an unknown model name is replaced by `'u2net'`. -/
def choose_model (sessions : List (String × Nat)) (model_name : String) : String :=
  if lookupDict sessions model_name = none then "u2net" else model_name

/-- `RembgAPIService.process_image` (src/app.py lines 107-174),
instrumented with a count of how many times `ext.remove` is invoked.
The internal `try/except` logs and re-raises, so every exception
(decode failure, missing session after fallback, `remove` failure)
propagates as `.error`.  On success it returns the PNG bytes of the
`remove` result, the processing time and the model actually used. -/
def process_image_traced (svc : Service) (ext : Ext) (mem : Nat)
    (file : UploadFile) (model_name : String) (max_size : Nat) :
    Except String (List Nat × Rat × String) × Nat :=
  match ext.decode file.bytes with
  | .error e => (.error e, 0)
  | .ok image0 =>
    let image := preprocess ext mem max_size image0
    let model := choose_model svc.sessions model_name
    match lookupDict svc.sessions model with
    | none => (.error ("KeyError: " ++ model), 0)
    | some session =>
      match ext.remove image session with
      | .error e => (.error e, 1)
      | .ok result =>
        (.ok (ext.encodePNG result, ext.procTime file.bytes, model), 1)

/-- `process_image` without the instrumentation. -/
def process_image (svc : Service) (ext : Ext) (mem : Nat)
    (file : UploadFile) (model_name : String) (max_size : Nat) :
    Except String (List Nat × Rat × String) :=
  (process_image_traced svc ext mem file model_name max_size).1

/-- A `POST /remove-bg` request: the optional `image` file part and the
`model` / `max_size` form fields. -/
structure RemoveBgRequest where
  imageFile : Option UploadFile
  model : Option String := none
  maxSize : Option Nat := none
deriving Repr, DecidableEq

/-- The observable parts of a `/remove-bg` response: HTTP status, PNG body
and mimetype on success, the `error`/`status`/`hint`/`plan` JSON fields on
failure, and the `X-Model-Used` / `X-Processing-Time` headers.  Number
formatting inside message strings is elided. -/
structure HttpResponse where
  status : Nat
  bodyBytes : Option (List Nat) := none
  mimetype : Option String := none
  errorMsg : Option String := none
  statusField : Option String := none
  hintField : Option String := none
  planField : Option String := none
  xModelUsed : Option String := none
  xProcessingTime : Option Rat := none
deriving Repr, DecidableEq

/-- The `try`/`except` tail of `remove_background` (src/app.py lines
626-653): run `process_image` and build the 200 `send_file` response with
its headers, or the 500 JSON response with `status: 'failed'` from the
caught exception. -/
def process_response (svc : Service) (ext : Ext) (mem : Nat)
    (file : UploadFile) (model : String) (max_size : Nat) : HttpResponse :=
  match process_image svc ext mem file model max_size with
  | .ok (png, t, used) =>
    { status := 200, bodyBytes := some png, mimetype := some "image/png",
      xModelUsed := some used, xProcessingTime := some t }
  | .error e =>
    { status := 500, errorMsg := some ("Verarbeitungsfehler: " ++ e),
      statusField := some "failed",
      hintField := some "Versuche ein kleineres Bild oder anderen Modell" }

/-- `remove_background` (src/app.py lines 589-653): validate the upload,
enforce the plan-dependent file-size limit (`len(bytes)/(1024*1024) >
(20 if total > 16GiB else 5)`, embedded as the equivalent exact integer
comparison), then delegate to `process_image` via `process_response`. -/
def remove_background (svc : Service) (ext : Ext) (mem : Nat)
    (req : RemoveBgRequest) : HttpResponse :=
  match req.imageFile with
  | none =>
    { status := 400, errorMsg := some "Kein Bild gefunden",
      hintField := some "Sende das Bild als image Parameter" }
  | some file =>
    if file.filename = "" then { status := 400, errorMsg := some "Leere Datei" }
    else
      let model := req.model.getD "u2net"
      let max_size := req.maxSize.getD 2000
      let max_file_size : Nat := if 16 * 1024 ^ 3 < mem then 20 else 5
      if max_file_size * 1024 * 1024 < file.bytes.length then
        { status := 413, errorMsg := some "Datei zu groß",
          planField := some (if 16 * 1024 ^ 3 < mem then "Pro Plan" else "Hobby Plan") }
      else process_response svc ext mem file model max_size

/-- A `POST /batch` request: the `images` file list and the `model` form
field. -/
structure BatchRequest where
  files : List UploadFile
  model : Option String := none
deriving Repr, DecidableEq

/-- One entry of the `results` list of a `/batch` response.  `image_data`
keeps the PNG bytes (the base64 JSON wrapping is elided). -/
structure BatchItem where
  index : Nat
  filename : String
  success : Bool
  processing_time : Option Rat := none
  model_used : Option String := none
  image_data : Option (List Nat) := none
  errorMsg : Option String := none
deriving Repr, DecidableEq

/-- The observable parts of a `/batch` response: rejection fields and the
`batch_results` statistics (times kept as exact rationals; the `f"...s"`
formatting is elided). -/
structure BatchResponse where
  status : Nat
  errorMsg : Option String := none
  total_images : Option Nat := none
  successful : Option Nat := none
  failed : Option Nat := none
  total_time : Option Rat := none
  average_time : Option Rat := none
  results : List BatchItem := []
deriving Repr, DecidableEq

/-- One iteration of the `for i, file in enumerate(files)` loop of
`batch_process` (src/app.py lines 682-707): append a success entry and
accumulate the time, or append a per-item failure entry. -/
def batchStep (svc : Service) (ext : Ext) (mem : Nat) (model : String)
    (acc : List BatchItem × Rat) (p : Nat × UploadFile) :
    List BatchItem × Rat :=
  match process_image svc ext mem p.2 model 2000 with
  | .ok (png, t, used) =>
    (acc.1 ++ [{ index := p.1, filename := p.2.filename, success := true,
                 processing_time := some t, model_used := some used,
                 image_data := some png }],
     acc.2 + t)
  | .error e =>
    (acc.1 ++ [{ index := p.1, filename := p.2.filename, success := false,
                 errorMsg := some e }],
     acc.2)

/-- The per-file loop and statistics of `batch_process` (src/app.py lines
676-719): `for i, file in enumerate(files)` with per-item `try`/`except`,
followed by the `batch_results` JSON. -/
def batch_ok_response (svc : Service) (ext : Ext) (mem : Nat)
    (req : BatchRequest) : BatchResponse :=
  let model := req.model.getD "u2net"
  let folded := req.files.enum.foldl (batchStep svc ext mem model) ([], 0)
  { status := 200,
    total_images := some req.files.length,
    successful := some (folded.1.countP (fun r => r.success)),
    failed := some (folded.1.countP (fun r => !r.success)),
    total_time := some folded.2,
    average_time := some (folded.2 / (req.files.length : Rat)),
    results := folded.1 }

/-- `batch_process` (src/app.py lines 655-723): reject empty requests with
400, reject over-limit batches (`10 if total > 16GiB else 3`) with 400,
otherwise process each file sequentially with per-item error capture
(`process_image` is called with the default `max_size = 2000`) and report
the statistics. -/
def batch_process (svc : Service) (ext : Ext) (mem : Nat)
    (req : BatchRequest) : BatchResponse :=
  if req.files.length = 0 then
    { status := 400, errorMsg := some "Keine Bilder gefunden" }
  else
    let max_batch_size : Nat := if 16 * 1024 ^ 3 < mem then 10 else 3
    if max_batch_size < req.files.length then
      { status := 400, errorMsg := some "Zu viele Bilder" }
    else batch_ok_response svc ext mem req

/-- `get_available_models` (src/app.py lines 564-587): the
`available_models` JSON object, mapping each loaded model to its
description, with the default string for models missing from the table. -/
def get_available_models (svc : Service) : List (String × String) :=
  svc.sessions.map
    (fun p =>
      (p.1, (lookupDict svc.model_descriptions p.1).getD
              "KI-Modell für Background-Removal"))

/-- A request to one of the routes of the app. -/
inductive ApiRequest where
  | removeBg (r : RemoveBgRequest)
  | batch (r : BatchRequest)
  | models
  | health
  | system
deriving Repr, DecidableEq

/-- The response of a route, with the JSON payloads the claims observe. -/
inductive ApiResponse where
  | single (r : HttpResponse)
  | batchR (r : BatchResponse)
  | modelsR (available : List (String × String))
  | infoR (available_models : List String) (plan : String)
deriving Repr, DecidableEq

/-- One request/response round of the Flask app: every handler reads the
shared `rembg_service` instance and never reassigns `sessions` or
`model_descriptions`, so the state component is returned unchanged,
exactly as in the source. -/
def handle (ext : Ext) (mem : Nat) (svc : Service) (rq : ApiRequest) :
    ApiResponse × Service :=
  match rq with
  | .removeBg r => (.single (remove_background svc ext mem r), svc)
  | .batch r => (.batchR (batch_process svc ext mem r), svc)
  | .models => (.modelsR (get_available_models svc), svc)
  | .health =>
    (.infoR (svc.sessions.map (fun p => p.1)) (detect_railway_plan (some mem)), svc)
  | .system =>
    (.infoR (svc.sessions.map (fun p => p.1)) (detect_railway_plan (some mem)), svc)

/-- The service state after serving a sequence of requests. -/
def serve (ext : Ext) (mem : Nat) (svc : Service) (rqs : List ApiRequest) :
    Service :=
  rqs.foldl (fun s rq => (handle ext mem s rq).2) svc

/-- The result entry the batch loop appends for the file at position `p.1`. -/
def batchItemOf (svc : Service) (ext : Ext) (mem : Nat) (model : String)
    (p : Nat × UploadFile) : BatchItem :=
  match process_image svc ext mem p.2 model 2000 with
  | .ok (png, t, used) =>
    { index := p.1, filename := p.2.filename, success := true,
      processing_time := some t, model_used := some used,
      image_data := some png }
  | .error e =>
    { index := p.1, filename := p.2.filename, success := false,
      errorMsg := some e }

/-- The time the batch loop adds to `total_time` for the file at position
`p.1`: the processing time on success, nothing on a per-item failure. -/
def batchTimeOf (svc : Service) (ext : Ext) (mem : Nat) (model : String)
    (p : Nat × UploadFile) : Rat :=
  match process_image svc ext mem p.2 model 2000 with
  | .ok (_, t, _) => t
  | .error _ => 0

/-! ### Concrete fixtures used by the witness theorems -/

/-- A concrete decoded image small enough to pass through `preprocess`
unchanged. -/
def testImg : Img := { width := 100, height := 50, tag := 7 }

/-- A concrete 4000 x 1000 image that triggers the pixel-count resize. -/
def bigImg : Img := { width := 4000, height := 1000, tag := 5 }

/-- A concrete instantiation of the external libraries: `[1, 2, 3]` is the
one byte string that decodes (to `testImg`), `remove` fails exactly on
images tagged 99, and every operation tags its output so that results are
traceable. -/
def testExt : Ext :=
  { decode := fun bs =>
      if bs = [1, 2, 3] then .ok testImg else .error "cannot identify image file",
    resize := fun img w h => { width := w, height := h, tag := img.tag + 100 },
    thumbnail := fun img m => { width := m, height := m, tag := img.tag + 200 },
    remove := fun img s =>
      if img.tag = 99 then .error "inference failed"
      else .ok { img with tag := img.tag * 1000 + s },
    encodePNG := fun img => [img.width, img.height, img.tag],
    new_session := fun m =>
      if m = "u2net" then some 1 else if m = "silueta" then some 2 else none,
    procTime := fun _ => 1 }

/-- A concrete service with the two essential models loaded. -/
def testSvc : Service :=
  { sessions := [("u2net", 1), ("silueta", 2)],
    model_descriptions := model_descriptions_table }

/-- A small upload whose bytes decode via `testExt`. -/
def goodUpload : UploadFile := { filename := "photo.jpg", bytes := [1, 2, 3] }

/-- A small upload whose bytes do not decode via `testExt`. -/
def badUpload : UploadFile := { filename := "broken.jpg", bytes := [9] }

/-- An upload one byte over the 5 MB Hobby-plan limit. -/
def bigUpload : UploadFile :=
  { filename := "big.jpg", bytes := List.replicate (5 * 1024 * 1024 + 1) 0 }

/-! ### Helper lemmas -/

/-- Every route handler leaves the service state unchanged. -/
lemma handle_state (ext : Ext) (mem : Nat) (svc : Service) (rq : ApiRequest) :
    (handle ext mem svc rq).2 = svc := by
  cases rq <;> rfl

/-- Serving any request sequence leaves the service state unchanged. -/
lemma serve_state (ext : Ext) (mem : Nat) (svc : Service)
    (rqs : List ApiRequest) : serve ext mem svc rqs = svc := by
  induction rqs with
  | nil => rfl
  | cons r rs ih =>
    show List.foldl _ _ (r :: rs) = svc
    rw [List.foldl_cons, handle_state]
    exact ih

/-- Floor of the real square root of a quotient of naturals, computed with
natural division and `Nat.sqrt`. -/
lemma nat_floor_sqrt_div (a N : ℕ) (hN : 0 < N) :
    ⌊Real.sqrt ((a : ℝ) / (N : ℝ))⌋₊ = Nat.sqrt (a / N) := by
  have hNR : (0 : ℝ) < (N : ℝ) := by exact_mod_cast hN
  have hnn : (0 : ℝ) ≤ (a : ℝ) / (N : ℝ) := by positivity
  set k := Nat.sqrt (a / N) with hk
  apply le_antisymm
  · have h1 : a / N < (k + 1) * (k + 1) := Nat.lt_succ_sqrt _
    have h2 : a < (k + 1) * (k + 1) * N := (Nat.div_lt_iff_lt_mul hN).1 h1
    have h3 : (a : ℝ) / (N : ℝ) < ((k : ℝ) + 1) ^ 2 := by
      rw [div_lt_iff₀ hNR]
      calc (a : ℝ) < (((k + 1) * (k + 1) * N : ℕ) : ℝ) := by exact_mod_cast h2
        _ = ((k : ℝ) + 1) ^ 2 * (N : ℝ) := by push_cast; ring
    have h4 : Real.sqrt ((a : ℝ) / (N : ℝ)) < ((k : ℝ) + 1) :=
      (Real.sqrt_lt' (by positivity)).2 h3
    have h5 : Real.sqrt ((a : ℝ) / (N : ℝ)) < ((k + 1 : ℕ) : ℝ) := by
      push_cast; exact h4
    exact Nat.lt_succ_iff.1 ((Nat.floor_lt (Real.sqrt_nonneg _)).2 h5)
  · have h5 : k * k * N ≤ a :=
      le_trans (Nat.mul_le_mul_right N (Nat.sqrt_le _)) (Nat.div_mul_le_self a N)
    have h6 : ((k : ℝ)) ^ 2 ≤ (a : ℝ) / (N : ℝ) := by
      rw [le_div_iff₀ hNR]
      calc ((k : ℝ)) ^ 2 * (N : ℝ) = ((k * k * N : ℕ) : ℝ) := by push_cast; ring
        _ ≤ (a : ℝ) := by exact_mod_cast h5
    exact Nat.le_floor ((Real.le_sqrt (Nat.cast_nonneg _) hnn).2 h6)

/-- `int(w * (p/N) ** 0.5)` over the exact reals equals
`Nat.sqrt (w*w*p / N)`, the form used in `preprocess`. -/
lemma nat_floor_mul_sqrt (w p N : ℕ) (hN : 0 < N) :
    ⌊(w : ℝ) * Real.sqrt ((p : ℝ) / (N : ℝ))⌋₊ = Nat.sqrt (w * w * p / N) := by
  have h1 : (w : ℝ) * Real.sqrt ((p : ℝ) / (N : ℝ))
      = Real.sqrt (((w * w * p : ℕ) : ℝ) / (N : ℝ)) := by
    rw [show (((w * w * p : ℕ) : ℝ)) / (N : ℝ)
          = ((w : ℝ) * (w : ℝ)) * ((p : ℝ) / (N : ℝ)) by push_cast; ring,
        Real.sqrt_mul (mul_self_nonneg _), Real.sqrt_mul_self (Nat.cast_nonneg _)]
  rw [h1, nat_floor_sqrt_div _ _ hN]

/-- Success and failure entries partition the result list. -/
lemma countP_success_split (l : List BatchItem) :
    l.countP (fun r => r.success) + l.countP (fun r => !r.success) = l.length := by
  induction l with
  | nil => rfl
  | cons x xs ih =>
    by_cases hx : x.success <;>
      simp [List.countP_cons, hx, ← ih] <;> omega

/-- One iteration of the batch loop appends exactly one entry and adds the
item's time. -/
lemma batchStep_eq (svc : Service) (ext : Ext) (mem : Nat) (model : String)
    (acc : List BatchItem × Rat) (p : Nat × UploadFile) :
    batchStep svc ext mem model acc p =
      (acc.1 ++ [batchItemOf svc ext mem model p],
       acc.2 + batchTimeOf svc ext mem model p) := by
  unfold batchStep batchItemOf batchTimeOf
  cases hpi : process_image svc ext mem p.2 model 2000 with
  | ok v => obtain ⟨png, t, used⟩ := v; simp
  | error e => simp

/-- The batch loop is a map over the enumerated file list plus a sum of the
per-item times. -/
lemma batch_foldl_eq (svc : Service) (ext : Ext) (mem : Nat) (model : String)
    (l : List (Nat × UploadFile)) (acc : List BatchItem × Rat) :
    l.foldl (batchStep svc ext mem model) acc =
      (acc.1 ++ l.map (batchItemOf svc ext mem model),
       acc.2 + (l.map (batchTimeOf svc ext mem model)).sum) := by
  induction l generalizing acc with
  | nil => simp
  | cons x xs ih =>
    rw [List.foldl_cons, batchStep_eq, ih]
    simp [List.append_assoc, add_assoc]

/-- Association-list lookup agrees with membership when the keys are
distinct. -/
lemma lookupDict_eq_some_iff {α : Type} (d : List (String × α))
    (hd : (d.map Prod.fst).Nodup) (k : String) (v : α) :
    lookupDict d k = some v ↔ (k, v) ∈ d := by
  induction d with
  | nil => simp [lookupDict]
  | cons p ps ih =>
    rw [List.map_cons, List.nodup_cons] at hd
    by_cases hk : p.1 = k
    · subst hk
      simp only [lookupDict, List.find?_cons, beq_self_eq_true, Option.map_some',
        List.mem_cons]
      constructor
      · rintro h
        left
        cases p
        simpa using h.symm
      · rintro (h | h)
        · rw [← h]
        · exact absurd (List.mem_map_of_mem Prod.fst h) hd.1
    · have hbeq : (p.1 == k) = false := beq_eq_false_iff_ne.2 hk
      simp only [lookupDict, List.find?_cons, hbeq, List.mem_cons]
      rw [show (List.find? (fun q => q.1 == k) ps).map (fun q => q.2)
            = lookupDict ps k from rfl, ih hd.2]
      constructor
      · exact fun h => Or.inr h
      · rintro (h | h)
        · exact absurd (congrArg Prod.fst h.symm) hk
        · exact h

/-! ### Claims -/

/-- C4: `_detect_railway_plan` classifies the total-memory reading
`total/(1024**3)` gigabytes as "Railway Pro Plan" above 16, "Railway Hobby
Plan" above 4 and up to 16, "Railway Trial Plan" otherwise, and falls back
to "Railway Pro Plan" when the reading raises. -/
theorem detect_railway_plan_spec (total : Nat) :
    (16 < (total : Rat) / 1024 ^ 3 →
       detect_railway_plan (some total) = "Railway Pro Plan") ∧
    (4 < (total : Rat) / 1024 ^ 3 → (total : Rat) / 1024 ^ 3 ≤ 16 →
       detect_railway_plan (some total) = "Railway Hobby Plan") ∧
    ((total : Rat) / 1024 ^ 3 ≤ 4 →
       detect_railway_plan (some total) = "Railway Trial Plan") ∧
    detect_railway_plan none = "Railway Pro Plan" := by
  refine ⟨fun h => ?_, fun h4 h16 => ?_, fun h => ?_, rfl⟩ <;>
    simp only [detect_railway_plan]
  · rw [if_pos h]
  · rw [if_neg (not_lt.2 h16), if_pos h4]
  · rw [if_neg (not_lt.2 (le_trans h (by norm_num))), if_neg (not_lt.2 h)]

/-- Witness for C4: concrete byte counts on each side of both thresholds,
plus the exception fallback. -/
theorem detect_railway_plan_spec_witness :
    detect_railway_plan (some (17 * 1024 ^ 3)) = "Railway Pro Plan" ∧
    detect_railway_plan (some (8 * 1024 ^ 3)) = "Railway Hobby Plan" ∧
    detect_railway_plan (some (1024 ^ 3)) = "Railway Trial Plan" ∧
    detect_railway_plan none = "Railway Pro Plan" :=
  ⟨(detect_railway_plan_spec (17 * 1024 ^ 3)).1 (by norm_num),
   (detect_railway_plan_spec (8 * 1024 ^ 3)).2.1 (by norm_num) (by norm_num),
   (detect_railway_plan_spec (1024 ^ 3)).2.2.1 (by norm_num),
   (detect_railway_plan_spec 0).2.2.2⟩

/-- C7: sessions are created only during service startup: serving any
sequence of requests returns the service state (hence the set of loaded
models) unchanged, `process_image` is insensitive to any replacement of
`new_session` (it reuses the stored sessions instead of loading), and the
session table is the one built by `_initialize_models`. -/
theorem sessions_only_at_startup (ext : Ext) (mem : Nat) (svc : Service)
    (rqs : List ApiRequest) (f : String → Option Nat) (file : UploadFile)
    (model_name : String) (max_size : Nat) (totalGb : Option Rat) :
    serve ext mem svc rqs = svc ∧
    process_image svc { ext with new_session := f } mem file model_name max_size
      = process_image svc ext mem file model_name max_size ∧
    (init_service ext totalGb).sessions = init_models ext totalGb :=
  ⟨serve_state ext mem svc rqs, rfl, rfl⟩

/-- C8: `model_descriptions` maps exactly the four model names to their
descriptive strings, no request handler changes it, and `GET /models`
lists every loaded model with its table description, defaulting to
'KI-Modell für Background-Removal' for models missing from the table. -/
theorem model_descriptions_spec (ext : Ext) (mem : Nat) (svc : Service)
    (rq : ApiRequest) (m d name : String)
    (hm : name ∈ svc.sessions.map (fun p => p.1)) :
    (lookupDict model_descriptions_table m = some d ↔
       (m, d) ∈ [("u2net", "Standard-Modell (beste Balance)"),
                 ("silueta", "Kompakt-Modell (schneller, 43MB)"),
                 ("u2net_human_seg", "Speziell für Menschen"),
                 ("isnet-general-use", "Verbessertes Modell (neueste Version)")]) ∧
    (handle ext mem svc rq).2.model_descriptions = svc.model_descriptions ∧
    (name, (lookupDict svc.model_descriptions name).getD
        "KI-Modell für Background-Removal") ∈ get_available_models svc ∧
    (get_available_models svc).map (fun p => p.1)
      = svc.sessions.map (fun p => p.1) := by
  refine ⟨?_, ?_, ?_, ?_⟩
  · have hnd : (model_descriptions_table.map Prod.fst).Nodup := by decide
    rw [lookupDict_eq_some_iff _ hnd]
    rfl
  · rw [handle_state]
  · obtain ⟨p, hp, hname⟩ := List.mem_map.1 hm
    subst hname
    exact List.mem_map_of_mem _ hp
  · simp [get_available_models, List.map_map]

/-- Witness for C8: the concrete service with `u2net` and `silueta`
loaded; `silueta` is listed by `/models` with its table description. -/
theorem model_descriptions_spec_witness :
    (lookupDict model_descriptions_table "silueta"
        = some "Kompakt-Modell (schneller, 43MB)" ↔
       ("silueta", "Kompakt-Modell (schneller, 43MB)")
         ∈ [("u2net", "Standard-Modell (beste Balance)"),
            ("silueta", "Kompakt-Modell (schneller, 43MB)"),
            ("u2net_human_seg", "Speziell für Menschen"),
            ("isnet-general-use", "Verbessertes Modell (neueste Version)")]) ∧
    (handle testExt 0 testSvc .models).2.model_descriptions
      = testSvc.model_descriptions ∧
    ("silueta", (lookupDict testSvc.model_descriptions "silueta").getD
        "KI-Modell für Background-Removal") ∈ get_available_models testSvc ∧
    (get_available_models testSvc).map (fun p => p.1)
      = testSvc.sessions.map (fun p => p.1) :=
  model_descriptions_spec testExt 0 testSvc .models "silueta"
    "Kompakt-Modell (schneller, 43MB)" "silueta" (by decide)

/-- Unfolded form of `remove_background` once a file with a non-empty
filename is present. -/
lemma remove_background_some (svc : Service) (ext : Ext) (mem : Nat)
    (req : RemoveBgRequest) (file : UploadFile)
    (hf : req.imageFile = some file) (hn : ¬file.filename = "") :
    remove_background svc ext mem req =
      if (if 16 * 1024 ^ 3 < mem then 20 else 5) * 1024 * 1024
          < file.bytes.length then
        { status := 413, errorMsg := some "Datei zu groß",
          planField := some
            (if 16 * 1024 ^ 3 < mem then "Pro Plan" else "Hobby Plan") }
      else
        process_response svc ext mem file (req.model.getD "u2net")
          (req.maxSize.getD 2000) := by
  simp only [remove_background, hf]
  rw [if_neg hn]

/-- Unfolded form of `batch_process` for a non-empty batch. -/
lemma batch_process_nonempty (svc : Service) (ext : Ext) (mem : Nat)
    (breq : BatchRequest) (h0 : ¬breq.files.length = 0) :
    batch_process svc ext mem breq =
      if (if 16 * 1024 ^ 3 < mem then 10 else 3) < breq.files.length then
        { status := 400, errorMsg := some "Zu viele Bilder" }
      else batch_ok_response svc ext mem breq := by
  simp only [batch_process]
  rw [if_neg h0]

/-- `process_response` answers 200 or 500, never anything else. -/
lemma process_response_status (svc : Service) (ext : Ext) (mem : Nat)
    (file : UploadFile) (model : String) (max_size : Nat) :
    (process_response svc ext mem file model max_size).status = 200 ∨
    (process_response svc ext mem file model max_size).status = 500 := by
  unfold process_response
  cases process_image svc ext mem file model max_size with
  | ok v => obtain ⟨png, t, used⟩ := v; left; rfl
  | error e => right; rfl

/-- The batch half of the limit claim: for a non-empty file list, 400
exactly on over-limit batches, and the rejection is independent of the
external libraries. -/
lemma batch_limit_cases (svc : Service) (ext : Ext) (mem : Nat)
    (breq : BatchRequest) (h0 : ¬breq.files.length = 0) :
    ((batch_process svc ext mem breq).status = 400 ↔
       (if 16 * 1024 ^ 3 < mem then 10 else 3) < breq.files.length) ∧
    ((batch_process svc ext mem breq).status = 400 →
       (batch_process svc ext mem breq).errorMsg = some "Zu viele Bilder" ∧
       ∀ ext' : Ext, batch_process svc ext' mem breq
         = batch_process svc ext mem breq) := by
  rw [batch_process_nonempty svc ext mem breq h0]
  by_cases hc : (if 16 * 1024 ^ 3 < mem then 10 else 3) < breq.files.length
  · rw [if_pos hc]
    exact ⟨⟨fun _ => hc, fun _ => rfl⟩,
           fun _ => ⟨rfl, fun ext' => by
             rw [batch_process_nonempty svc ext' mem breq h0, if_pos hc]⟩⟩
  · rw [if_neg hc]
    have h200 : (batch_ok_response svc ext mem breq).status = 200 := rfl
    exact ⟨⟨fun h => absurd (h200.symm.trans h) (by decide),
             fun h => absurd h hc⟩,
            fun h => absurd (h200.symm.trans h) (by decide)⟩

/-- C2: for an upload with a file part and a non-empty filename,
`/remove-bg` responds 413 with a JSON error exactly when the byte count
exceeds the plan limit (20 MB when total memory exceeds 16 GiB, else
5 MB); for a batch request carrying at least one image, `/batch` responds
400 exactly when the image count exceeds the plan limit (10 when total
memory exceeds 16 GiB, else 3); in both rejection cases the response does
not depend on the external libraries, so no image is processed. -/
theorem plan_limits_spec (svc : Service) (ext : Ext) (mem : Nat)
    (req : RemoveBgRequest) (file : UploadFile) (breq : BatchRequest)
    (hf : req.imageFile = some file) (hn : file.filename ≠ "")
    (hb : breq.files ≠ []) :
    ((remove_background svc ext mem req).status = 413 ↔
       (if 16 * 1024 ^ 3 < mem then 20 else 5) * 1024 * 1024
         < file.bytes.length) ∧
    ((remove_background svc ext mem req).status = 413 →
       (remove_background svc ext mem req).errorMsg = some "Datei zu groß" ∧
       ∀ ext' : Ext, remove_background svc ext' mem req
         = remove_background svc ext mem req) ∧
    ((batch_process svc ext mem breq).status = 400 ↔
       (if 16 * 1024 ^ 3 < mem then 10 else 3) < breq.files.length) ∧
    ((batch_process svc ext mem breq).status = 400 →
       (batch_process svc ext mem breq).errorMsg = some "Zu viele Bilder" ∧
       ∀ ext' : Ext, batch_process svc ext' mem breq
         = batch_process svc ext mem breq) := by
  have h0 : ¬breq.files.length = 0 := fun h => hb (List.length_eq_zero.1 h)
  have hbc := batch_limit_cases svc ext mem breq h0
  rw [remove_background_some svc ext mem req file hf hn]
  by_cases hsz :
      (if 16 * 1024 ^ 3 < mem then 20 else 5) * 1024 * 1024 < file.bytes.length
  · rw [if_pos hsz]
    exact ⟨⟨fun _ => hsz, fun _ => rfl⟩,
           fun _ => ⟨rfl, fun ext' => by
             rw [remove_background_some svc ext' mem req file hf hn, if_pos hsz]⟩,
           hbc.1, hbc.2⟩
  · rw [if_neg hsz]
    rcases process_response_status svc ext mem file (req.model.getD "u2net")
        (req.maxSize.getD 2000) with h | h <;>
      exact ⟨⟨fun hx => absurd (h.symm.trans hx) (by decide),
               fun hx => absurd hx hsz⟩,
             fun hx => absurd (h.symm.trans hx) (by decide), hbc.1, hbc.2⟩

/-- Witness for C2: with 0 bytes of memory (Hobby limits), a 5 MB + 1 byte
upload is rejected with 413 and a 4-image batch is rejected with 400. -/
theorem plan_limits_spec_witness :
    (remove_background testSvc testExt 0
        { imageFile := some bigUpload }).status = 413 ∧
    (batch_process testSvc testExt 0
        { files := [goodUpload, goodUpload, goodUpload, goodUpload] }).status
      = 400 :=
  ⟨((plan_limits_spec testSvc testExt 0 { imageFile := some bigUpload }
      bigUpload { files := [goodUpload, goodUpload, goodUpload, goodUpload] }
      rfl (by decide) (by decide)).1).mpr
      (by unfold bigUpload; rw [List.length_replicate]; norm_num),
   ((plan_limits_spec testSvc testExt 0 { imageFile := some bigUpload }
      bigUpload { files := [goodUpload, goodUpload, goodUpload, goodUpload] }
      rfl (by decide) (by decide)).2.2.1).mpr (by decide)⟩

/-- C1: a /remove-bg request whose multipart file is present with a
non-empty filename and within the plan's size limit, whose bytes decode to
an image, whose effective model has a stored session, and on which the
external remove() call returns, is answered 200 with body exactly the PNG
encoding of the remove() result on the possibly-resized image, served with
mimetype 'image/png'. -/
theorem remove_bg_success_spec (svc : Service) (ext : Ext) (mem : Nat)
    (req : RemoveBgRequest) (file : UploadFile) (img result : Img)
    (session : Nat)
    (hf : req.imageFile = some file) (hn : ¬file.filename = "")
    (hsz : ¬(if 16 * 1024 ^ 3 < mem then 20 else 5) * 1024 * 1024
        < file.bytes.length)
    (hdec : ext.decode file.bytes = .ok img)
    (hs : lookupDict svc.sessions
        (choose_model svc.sessions (req.model.getD "u2net")) = some session)
    (hr : ext.remove (preprocess ext mem (req.maxSize.getD 2000) img) session
        = .ok result) :
    remove_background svc ext mem req =
      { status := 200, bodyBytes := some (ext.encodePNG result),
        mimetype := some "image/png",
        xModelUsed := some (choose_model svc.sessions (req.model.getD "u2net")),
        xProcessingTime := some (ext.procTime file.bytes) } := by
  rw [remove_background_some svc ext mem req file hf hn, if_neg hsz]
  simp only [process_response, process_image, process_image_traced, hdec,
    hs, hr]

/-- Witness for C1: the small good upload processed with the default
model through `testExt`. -/
theorem remove_bg_success_spec_witness :
    remove_background testSvc testExt 0 { imageFile := some goodUpload } =
      { status := 200, bodyBytes := some [100, 50, 7001],
        mimetype := some "image/png", xModelUsed := some "u2net",
        xProcessingTime := some 1 } :=
  remove_bg_success_spec testSvc testExt 0 { imageFile := some goodUpload }
    goodUpload testImg { width := 100, height := 50, tag := 7001 } 1
    rfl (by decide) (by decide) rfl rfl rfl

/-- C6: during any single processing run remove() is invoked at most once
(there is no retry); an exception raised by remove() propagates out of
`process_image` unchanged; and a /remove-bg request whose processing
raises is answered 500 with the error message and status 'failed'. -/
theorem single_try_error_spec (svc : Service) (ext : Ext) (mem : Nat)
    (req : RemoveBgRequest) (file : UploadFile) (e : String)
    (hf : req.imageFile = some file) (hn : ¬file.filename = "")
    (hsz : ¬(if 16 * 1024 ^ 3 < mem then 20 else 5) * 1024 * 1024
        < file.bytes.length)
    (he : process_image svc ext mem file (req.model.getD "u2net")
        (req.maxSize.getD 2000) = .error e) :
    (∀ (svc' : Service) (ext' : Ext) (mem' : Nat) (f' : UploadFile)
       (m' : String) (ms' : Nat),
       (process_image_traced svc' ext' mem' f' m' ms').2 ≤ 1) ∧
    (∀ (img : Img) (s : Nat) (msg : String),
       ext.decode file.bytes = .ok img →
       lookupDict svc.sessions
         (choose_model svc.sessions (req.model.getD "u2net")) = some s →
       ext.remove (preprocess ext mem (req.maxSize.getD 2000) img) s
         = .error msg →
       process_image svc ext mem file (req.model.getD "u2net")
         (req.maxSize.getD 2000) = .error msg) ∧
    remove_background svc ext mem req =
      { status := 500, errorMsg := some ("Verarbeitungsfehler: " ++ e),
        statusField := some "failed",
        hintField := some "Versuche ein kleineres Bild oder anderen Modell" } := by
  refine ⟨?_, ?_, ?_⟩
  · intro svc' ext' mem' f' m' ms'
    simp only [process_image_traced]
    cases hdec : ext'.decode f'.bytes with
    | error e' => simp [hdec]
    | ok img0 =>
      cases hlk : lookupDict svc'.sessions (choose_model svc'.sessions m') with
      | none => simp [hlk]
      | some s =>
        cases hrem : ext'.remove (preprocess ext' mem' ms' img0) s with
        | error e' => simp [hdec, hlk, hrem]
        | ok r => simp [hdec, hlk, hrem]
  · intro img s msg hdec hs hr
    simp only [process_image, process_image_traced, hdec, hs, hr]
  · rw [remove_background_some svc ext mem req file hf hn, if_neg hsz]
    simp only [process_response, he]

/-- Witness for C6: the undecodable upload yields the 500 response with
the propagated error message. -/
theorem single_try_error_spec_witness :
    remove_background testSvc testExt 0 { imageFile := some badUpload } =
      { status := 500,
        errorMsg := some "Verarbeitungsfehler: cannot identify image file",
        statusField := some "failed",
        hintField := some "Versuche ein kleineres Bild oder anderen Modell" } :=
  (single_try_error_spec testSvc testExt 0 { imageFile := some badUpload }
    badUpload "cannot identify image file" rfl (by decide) (by decide)
    rfl).2.2

/-- A successful `process_image` reports exactly the model selected by the
fallback step. -/
lemma process_image_ok_model (svc : Service) (ext : Ext) (mem : Nat)
    (file : UploadFile) (m : String) (ms : Nat) (png : List Nat) (t : Rat)
    (used : String)
    (h : process_image svc ext mem file m ms = .ok (png, t, used)) :
    used = choose_model svc.sessions m := by
  simp only [process_image, process_image_traced] at h
  cases hdec : ext.decode file.bytes with
  | error e => simp [hdec] at h
  | ok img0 =>
    cases hlk : lookupDict svc.sessions (choose_model svc.sessions m) with
    | none => simp [hdec, hlk] at h
    | some s =>
      cases hrem : ext.remove (preprocess ext mem ms img0) s with
      | error e => simp [hdec, hlk, hrem] at h
      | ok r =>
        simp only [hdec, hlk, hrem, Except.ok.injEq, Prod.mk.injEq] at h
        exact h.2.2.symm

/-- C9: when the requested model has no session, `process_image`
substitutes 'u2net', returns it as the model used, and /remove-bg reports
it in the X-Model-Used header; with 'u2net' loaded, the session lookup on
the substituted name always finds a session. -/
theorem model_fallback_spec (svc : Service) (ext : Ext) (mem : Nat)
    (req : RemoveBgRequest) (s₀ : Nat)
    (hu : lookupDict svc.sessions "u2net" = some s₀)
    (hm : lookupDict svc.sessions (req.model.getD "u2net") = none) :
    choose_model svc.sessions (req.model.getD "u2net") = "u2net" ∧
    lookupDict svc.sessions
      (choose_model svc.sessions (req.model.getD "u2net")) = some s₀ ∧
    (∀ m : String,
       ∃ s, lookupDict svc.sessions (choose_model svc.sessions m) = some s) ∧
    (∀ (file : UploadFile) (png : List Nat) (t : Rat) (used : String),
       req.imageFile = some file → ¬file.filename = "" →
       ¬(if 16 * 1024 ^ 3 < mem then 20 else 5) * 1024 * 1024
           < file.bytes.length →
       process_image svc ext mem file (req.model.getD "u2net")
         (req.maxSize.getD 2000) = .ok (png, t, used) →
       used = "u2net" ∧
       (remove_background svc ext mem req).xModelUsed = some "u2net") := by
  have h1 : choose_model svc.sessions (req.model.getD "u2net") = "u2net" := by
    simp [choose_model, hm]
  refine ⟨h1, by rw [h1]; exact hu, ?_, ?_⟩
  · intro m
    by_cases hlm : lookupDict svc.sessions m = none
    · exact ⟨s₀, by simp [choose_model, hlm, hu]⟩
    · obtain ⟨s, hs⟩ := Option.ne_none_iff_exists'.1 hlm
      exact ⟨s, by simp [choose_model, hlm, hs]⟩
  · intro file png t used hfile hn hsz hok
    have hused : used = "u2net" :=
      (process_image_ok_model svc ext mem file _ _ png t used hok).trans h1
    refine ⟨hused, ?_⟩
    rw [remove_background_some svc ext mem req file hfile hn, if_neg hsz]
    simp only [process_response, hok, hused]

/-- Witness for C9: requesting the unloaded model 'unknown' through the
concrete service falls back to 'u2net', whose session is found, and
X-Model-Used reports 'u2net'. -/
theorem model_fallback_spec_witness :
    choose_model testSvc.sessions "unknown" = "u2net" ∧
    lookupDict testSvc.sessions (choose_model testSvc.sessions "unknown")
      = some 1 ∧
    (remove_background testSvc testExt 0
        { imageFile := some goodUpload,
          model := some "unknown" }).xModelUsed = some "u2net" :=
  let h := model_fallback_spec testSvc testExt 0
    { imageFile := some goodUpload, model := some "unknown" } 1 rfl rfl
  ⟨h.1, h.2.1,
   (h.2.2.2 goodUpload [100, 50, 7001] 1 "u2net" rfl (by decide) (by decide)
     rfl).2⟩

/-- The result list of an accepted batch is the per-item map over the
enumerated files. -/
lemma batch_ok_results (svc : Service) (ext : Ext) (mem : Nat)
    (req : BatchRequest) :
    (batch_ok_response svc ext mem req).results
      = req.files.enum.map
          (batchItemOf svc ext mem (req.model.getD "u2net")) ∧
    (batch_ok_response svc ext mem req).total_time
      = some ((req.files.enum.map
          (batchTimeOf svc ext mem (req.model.getD "u2net"))).sum) := by
  constructor <;>
    simp [batch_ok_response, batch_foldl_eq]

/-- C3: an accepted batch (non-empty, within the limit) is processed
sequentially in input order with per-item error capture: the response has
exactly one result entry per uploaded file; the i-th entry carries index i
and the i-th file's filename; if processing that file raises, its entry
has success=false and the error message while the other entries still
exist; if it succeeds, the entry carries the item's data. -/
theorem batch_items_spec (svc : Service) (ext : Ext) (mem : Nat)
    (req : BatchRequest) (i : Nat) (file : UploadFile)
    (h0 : req.files ≠ [])
    (hle : ¬(if 16 * 1024 ^ 3 < mem then 10 else 3) < req.files.length)
    (hi : req.files[i]? = some file) :
    (batch_process svc ext mem req).status = 200 ∧
    (batch_process svc ext mem req).results.length = req.files.length ∧
    ∃ r : BatchItem,
      (batch_process svc ext mem req).results[i]? = some r ∧
      r.index = i ∧ r.filename = file.filename ∧
      (∀ e : String,
        process_image svc ext mem file (req.model.getD "u2net") 2000
          = .error e → r.success = false ∧ r.errorMsg = some e) ∧
      (∀ (png : List Nat) (t : Rat) (used : String),
        process_image svc ext mem file (req.model.getD "u2net") 2000
          = .ok (png, t, used) →
        r.success = true ∧ r.processing_time = some t ∧
        r.model_used = some used ∧ r.image_data = some png) := by
  have h0' : ¬req.files.length = 0 := fun h => h0 (List.length_eq_zero.1 h)
  rw [batch_process_nonempty svc ext mem req h0', if_neg hle]
  have hres := (batch_ok_results svc ext mem req).1
  refine ⟨rfl, ?_, ?_⟩
  · rw [hres]
    simp [List.enum_length]
  · refine ⟨batchItemOf svc ext mem (req.model.getD "u2net") (i, file),
      ?_, ?_, ?_, ?_, ?_⟩
    · rw [hres, List.getElem?_map, List.getElem?_enum, hi]
      rfl
    · cases hpi : process_image svc ext mem file (req.model.getD "u2net")
          2000 with
      | ok v => obtain ⟨png, t, used⟩ := v; simp [batchItemOf, hpi]
      | error e => simp [batchItemOf, hpi]
    · cases hpi : process_image svc ext mem file (req.model.getD "u2net")
          2000 with
      | ok v => obtain ⟨png, t, used⟩ := v; simp [batchItemOf, hpi]
      | error e => simp [batchItemOf, hpi]
    · intro e he
      simp [batchItemOf, he]
    · intro png t used hok
      simp [batchItemOf, hok]

/-- Witness for C3: a two-file batch through `testExt` where the second
file fails to decode; its entry records the failure at index 1. -/
theorem batch_items_spec_witness :
    (batch_process testSvc testExt 0
        { files := [goodUpload, badUpload] }).status = 200 ∧
    (batch_process testSvc testExt 0
        { files := [goodUpload, badUpload] }).results.length = 2 ∧
    ∃ r : BatchItem,
      (batch_process testSvc testExt 0
          { files := [goodUpload, badUpload] }).results[1]? = some r ∧
      r.index = 1 ∧ r.filename = "broken.jpg" ∧ r.success = false ∧
      r.errorMsg = some "cannot identify image file" := by
  obtain ⟨h1, h2, r, hr, hidx, hname, hfail, hok⟩ :=
    batch_items_spec testSvc testExt 0 { files := [goodUpload, badUpload] }
      1 badUpload (by decide) (by decide) rfl
  exact ⟨h1, h2, r, hr, hidx, hname, (hfail _ rfl).1, (hfail _ rfl).2⟩

/-- C10: in every accepted batch response successful + failed =
total_images = the number of uploaded files and average_time = total_time
divided by total_images, whose divisor is positive because requests with
zero files are rejected with 400 before any processing (with an empty
result list, independently of the external libraries). -/
theorem batch_stats_spec (svc : Service) (ext : Ext) (mem : Nat)
    (req emptyReq : BatchRequest)
    (h0 : req.files ≠ [])
    (hle : ¬(if 16 * 1024 ^ 3 < mem then 10 else 3) < req.files.length)
    (hempty : emptyReq.files = []) :
    (batch_process svc ext mem req).successful.getD 0
        + (batch_process svc ext mem req).failed.getD 0
      = req.files.length ∧
    (batch_process svc ext mem req).total_images = some req.files.length ∧
    (batch_process svc ext mem req).average_time
      = some ((batch_process svc ext mem req).total_time.getD 0
          / (req.files.length : Rat)) ∧
    0 < req.files.length ∧
    (batch_process svc ext mem emptyReq).status = 400 ∧
    (batch_process svc ext mem emptyReq).results = [] ∧
    ∀ ext' : Ext, batch_process svc ext' mem emptyReq
      = batch_process svc ext mem emptyReq := by
  have h0' : ¬req.files.length = 0 := fun h => h0 (List.length_eq_zero.1 h)
  have hemp : ∀ ext' : Ext, batch_process svc ext' mem emptyReq
      = { status := 400, errorMsg := some "Keine Bilder gefunden" } := by
    intro ext'
    simp [batch_process, hempty]
  rw [batch_process_nonempty svc ext mem req h0', if_neg hle]
  refine ⟨?_, rfl, rfl, Nat.pos_of_ne_zero h0', ?_, ?_, ?_⟩
  · have hres := (batch_ok_results svc ext mem req).1
    have hcount :=
      countP_success_split (batch_ok_response svc ext mem req).results
    have hs : (batch_ok_response svc ext mem req).successful
        = some ((batch_ok_response svc ext mem req).results.countP
            (fun r => r.success)) := rfl
    have hf : (batch_ok_response svc ext mem req).failed
        = some ((batch_ok_response svc ext mem req).results.countP
            (fun r => !r.success)) := rfl
    rw [hs, hf]
    simp only [Option.getD_some]
    rw [hcount, hres]
    simp [List.enum_length]
  · rw [hemp ext]
  · rw [hemp ext]
  · intro ext'
    rw [hemp ext', hemp ext]

/-- Witness for C10: the two-file batch statistics add up, and the empty
request is rejected with 400. -/
theorem batch_stats_spec_witness :
    (batch_process testSvc testExt 0
        { files := [goodUpload, badUpload] }).successful.getD 0
        + (batch_process testSvc testExt 0
            { files := [goodUpload, badUpload] }).failed.getD 0 = 2 ∧
    (batch_process testSvc testExt 0
        { files := [goodUpload, badUpload] }).total_images = some 2 ∧
    (batch_process testSvc testExt 0
        { files := [goodUpload, badUpload] }).average_time
      = some ((batch_process testSvc testExt 0
            { files := [goodUpload, badUpload] }).total_time.getD 0 / 2) ∧
    (batch_process testSvc testExt 0 { files := [] }).status = 400 := by
  obtain ⟨hs, ht, ha, hpos, h400, hres, hind⟩ :=
    batch_stats_spec testSvc testExt 0 { files := [goodUpload, badUpload] }
      { files := [] } (by decide) (by decide) rfl
  exact ⟨hs, ht, ha, h400⟩

/-- C5: `process_image` pre-processes the decoded image before remove():
with max_pixels = 4000000 when total memory exceeds 16 GiB else 1500000,
an image whose pixel count exceeds max_pixels is resized with both
dimensions scaled by sqrt(max_pixels / pixel count) (floor of the exact
real value); otherwise an image whose larger dimension exceeds max_size is
thumbnailed within max_size x max_size; otherwise it is passed unchanged;
and remove() receives exactly the pre-processed image. -/
theorem preprocess_spec (svc : Service) (ext : Ext) (mem : Nat)
    (max_size : Nat) (image : Img) (file : UploadFile) (model_name : String)
    (img : Img) (s : Nat) (result : Img) :
    maxPixelsFor mem = (if 16 * 1024 ^ 3 < mem then 4000000 else 1500000) ∧
    (maxPixelsFor mem < image.width * image.height →
      preprocess ext mem max_size image =
        ext.resize image
          (⌊(image.width : ℝ) * Real.sqrt ((maxPixelsFor mem : ℝ)
              / ((image.width * image.height : Nat) : ℝ))⌋₊)
          (⌊(image.height : ℝ) * Real.sqrt ((maxPixelsFor mem : ℝ)
              / ((image.width * image.height : Nat) : ℝ))⌋₊)) ∧
    (¬maxPixelsFor mem < image.width * image.height →
      max_size < max image.width image.height →
      preprocess ext mem max_size image = ext.thumbnail image max_size) ∧
    (¬maxPixelsFor mem < image.width * image.height →
      ¬max_size < max image.width image.height →
      preprocess ext mem max_size image = image) ∧
    (ext.decode file.bytes = .ok img →
      lookupDict svc.sessions (choose_model svc.sessions model_name)
        = some s →
      ext.remove (preprocess ext mem max_size img) s = .ok result →
      process_image svc ext mem file model_name max_size
        = .ok (ext.encodePNG result, ext.procTime file.bytes,
            choose_model svc.sessions model_name)) := by
  refine ⟨rfl, ?_, ?_, ?_, ?_⟩
  · intro h
    have hp : 0 < maxPixelsFor mem := by
      unfold maxPixelsFor
      split <;> norm_num
    have hN : 0 < image.width * image.height := lt_trans hp h
    rw [nat_floor_mul_sqrt image.width (maxPixelsFor mem)
          (image.width * image.height) hN,
        nat_floor_mul_sqrt image.height (maxPixelsFor mem)
          (image.width * image.height) hN]
    unfold preprocess
    rw [if_pos h]
  · intro h1 h2
    unfold preprocess
    rw [if_neg h1, if_pos h2]
  · intro h1 h2
    unfold preprocess
    rw [if_neg h1, if_neg h2]
  · intro hdec hs hr
    simp only [process_image, process_image_traced, hdec, hs, hr]

/-- Witness for C5: the 4000 x 1000 image exceeds the Hobby-plan pixel
budget and is resized with both dimensions scaled by the square-root
factor. -/
theorem preprocess_spec_witness :
    maxPixelsFor 0 < bigImg.width * bigImg.height ∧
    preprocess testExt 0 2000 bigImg =
      testExt.resize bigImg
        (⌊(bigImg.width : ℝ) * Real.sqrt ((maxPixelsFor 0 : ℝ)
            / ((bigImg.width * bigImg.height : Nat) : ℝ))⌋₊)
        (⌊(bigImg.height : ℝ) * Real.sqrt ((maxPixelsFor 0 : ℝ)
            / ((bigImg.width * bigImg.height : Nat) : ℝ))⌋₊) :=
  ⟨by decide,
   (preprocess_spec testSvc testExt 0 2000 bigImg goodUpload "u2net"
       testImg 1 testImg).2.1 (by decide)⟩

end RembgApi
